import Mathlib

/-!
Verification of the Identity & Trust Ledger core of the actoris repository
(Go service `identity-cloud`: domain model, Neo4j repository queries, service
layer and gRPC handlers).

Modelling conventions, each taken from the source files:

* Monetary amounts (`shopspring/decimal`) are exact decimals; we model them as
  rationals.  The repository layer, however, converts every amount to an IEEE-754
  binary64 value before running its Cypher query (`amount.Float64()` in Go,
  `toFloat(...)` in Cypher) and stores the result of binary64 arithmetic
  (`toString(toFloat(w.available) - $amount)`).  We model binary64
  round-to-nearest-even by the function `fl64` below, over exact rationals.
  The model is valid for magnitudes between 2 ^ (-40) and 2 ^ 60, which covers
  every value appearing in this development; overflow, subnormals and NaN do
  not arise.
* Neo4j stores wallet balances as strings; `toString` of a float produces the
  shortest decimal string that parses back (`toFloat`) to the same binary64
  value.  A stored balance is modelled by the exact decimal value of that
  string (`shortestDec` applied to the binary64 result), which is also what Go
  `GetHCWallet` parses with `decimal.NewFromString` and what `Total` adds.
* Cypher evaluates every right-hand side of a single SET clause against the
  state the clause started from (reads in a clause do not observe writes of the
  same clause); `RecordVerificationOutcome` is modelled accordingly.
* Timestamps (`datetime()`, `time.Now()`) are modelled by an integer `now`
  parameter; wallet expiry keeps only its ordering role.
* Neo4j node properties are 64-bit signed integers; trust-score fields are
  modelled as `Int` (they can in fact leave ℕ, see C7).  Go views them as
  `uint32`, modelled by `u32` (reduction mod 2 ^ 32).
* Fields not referenced by any claim (identifiers, `updated_at`,
  `dispute_rate`, public keys) are omitted.
-/

set_option maxRecDepth 100000

attribute [local semireducible] Rat.add Rat.mul Rat.sub Rat.inv

/-! ### Binary64 (IEEE-754 double) model over ℚ -/

/-- Floor of a rational, computed with integer floor division. -/
def qfloor (q : ℚ) : ℤ := q.num.fdiv q.den

/-- Fuel-driven base-2 logarithm on naturals (structural recursion, so that it
evaluates inside the kernel). -/
def log2fuel : ℕ → ℕ → ℕ
  | 0, _ => 0
  | f + 1, n => if n ≥ 2 then log2fuel f (n / 2) + 1 else 0

/-- Floor of the base-2 logarithm of a positive rational, valid for
magnitudes above 2 ^ (-40). -/
def floorLog2 (q : ℚ) : ℤ :=
  (log2fuel 128 (qfloor (q * ((2 ^ 40 : ℕ) : ℚ))).toNat : ℤ) - 40

/-- Round a rational to the nearest integer, ties to even. -/
def roundHalfEven (r : ℚ) : ℤ :=
  let f := qfloor r
  let frac := r - (f : ℚ)
  if frac < 1 / 2 then f
  else if 1 / 2 < frac then f + 1
  else if f % 2 = 0 then f else f + 1

/-- Multiply a rational by an integer power of two. -/
def scalePow (q : ℚ) (i : ℤ) : ℚ :=
  if 0 ≤ i then q * ((2 ^ i.toNat : ℕ) : ℚ) else q / ((2 ^ (-i).toNat : ℕ) : ℚ)

/-- Round a positive rational to the nearest binary64 value (53 significant
bits, ties to even), returned as an exact rational. -/
def fl64Pos (q : ℚ) : ℚ :=
  let e := floorLog2 q
  scalePow ((roundHalfEven (scalePow q (52 - e)) : ℤ) : ℚ) (e - 52)

/-- Round a rational to the nearest binary64 value, returned as an exact
rational.  This models Go `Float64()` conversions, Cypher `toFloat`, and each
binary64 arithmetic operation (whose exact result is rounded once). -/
def fl64 (q : ℚ) : ℚ :=
  if q = 0 then 0
  else if q < 0 then - fl64Pos (-q)
  else fl64Pos q

/-- The binary64 value of the source literal `0.30`
(`domain.InheritedTrust`). -/
def fl03 : ℚ := fl64 (3 / 10)

/-- The binary64 value of the source literal `0.10`
(`domain.MinInheritedTau`). -/
def fl01 : ℚ := fl64 (1 / 10)

/-- Ceiling of a rational. -/
def qceil (q : ℚ) : ℤ := - qfloor (-q)

/-- Search for the fewest decimal places k such that a multiple of 10 ^ (-k)
lies in the rounding interval (lo, hi) of a binary64 value v (the interval is
closed when the significand is even, otherwise open), and return the multiple
of 10 ^ (-k) in that interval closest to v: the decimal value of the shortest
string that parses back to v. -/
def shortestDigits (v lo hi : ℚ) (closed : Bool) : ℕ → ℕ → ℚ
  | 0, _ => v
  | fuel + 1, k =>
    let p : ℚ := ((10 ^ k : ℕ) : ℚ)
    let a := if closed then qceil (lo * p) else qfloor (lo * p) + 1
    let b := if closed then qfloor (hi * p) else qceil (hi * p) - 1
    if a ≤ b then ((max a (min b (roundHalfEven (v * p))) : ℤ) : ℚ) / p
    else shortestDigits v lo hi closed fuel (k + 1)

/-- The decimal value of the shortest decimal string that parses back (round
to nearest) to the positive binary64 value v; the rounding interval reaches
half an ulp on each side, except a quarter ulp below when v is a power of two
(where the gap below is half the gap above). -/
def shortestDecPos (v : ℚ) : ℚ :=
  let e := floorLog2 v
  let m := qfloor (scalePow v (52 - e))
  let ulp := scalePow 1 (e - 52)
  let lo := if m = 2 ^ 52 then v - ulp / 4 else v - ulp / 2
  let hi := v + ulp / 2
  shortestDigits v lo hi (m % 2 == 0) 24 0

/-- The exact decimal value of the string that Cypher `toString` prints for a
binary64 value (shortest round-trip representation): this is the value the
store keeps and that Go later parses with `decimal.NewFromString`. -/
def shortestDec (q : ℚ) : ℚ :=
  if q = 0 then 0
  else if q < 0 then - shortestDecPos (-q)
  else shortestDecPos q

/-! ### Domain model (`internal/domain`, src/unnamed/part_001) -/

/-- Reduction of a stored 64-bit integer to the `uint32` view that the Go
domain structs use (`uint32(record.Values[i].(int64))`). -/
def u32 (z : ℤ) : ℤ := z.emod (2 ^ 32)

/-- Go conversion `uint32(f)` of a nonnegative binary64 value: truncation
toward zero. -/
def truncNat (q : ℚ) : ℕ := (qfloor q).toNat

/-- TrustScore aggregate as persisted by the repository (components can leave
their documented ranges, hence `Int`; see claim C7). -/
structure TrustScore where
  score : ℤ
  verification : ℤ
  disputePenalty : ℤ
  sla : ℤ
  network : ℤ
  verifiedOutcomes : ℕ
  version : ℕ
deriving DecidableEq

/-- The default trust score created together with every identity
(`CreateIdentity` Cypher: score 500, verification 200, dispute 0, sla 100,
network 200, outcomes 0, version 1). -/
def defaultTrustScore : TrustScore :=
  { score := 500, verification := 200, disputePenalty := 0, sla := 100,
    network := 200, verifiedOutcomes := 0, version := 1 }

/-- Normalized trust as a function of the stored score
(`Tau() = float64(Score) / float64(MaxScore)`, one binary64 division). -/
def tauOfScore (z : ℤ) : ℚ := fl64 ((u32 z : ℚ) / 1000)

/-- Inherited tau as a function of the parent score
(`InheritedTauForChild`: `Tau() * InheritedTrust`, floored at
`MinInheritedTau`). -/
def inheritedTauOfScore (z : ℤ) : ℚ :=
  let inherited := fl64 (tauOfScore z * fl03)
  if inherited < fl01 then fl01 else inherited

/-- Method view of `tauOfScore` (`TrustScore.Tau`). -/
def TrustScore.Tau (t : TrustScore) : ℚ := tauOfScore t.score

/-- Method view of `inheritedTauOfScore` (`TrustScore.InheritedTauForChild`). -/
def TrustScore.InheritedTauForChild (t : TrustScore) : ℚ :=
  inheritedTauOfScore t.score

/-- HCWallet aggregate: balances are the exact decimal values of the stored
strings (what `decimal.NewFromString` parses on read), expiry is an abstract
instant, `version` the optimistic concurrency counter. -/
structure HCWallet where
  available : ℚ
  locked : ℚ
  expiresAt : ℤ
  version : ℕ
deriving DecidableEq

/-- Total balance (`HCWallet.Total`): exact decimal addition. -/
def HCWallet.Total (w : HCWallet) : ℚ := w.available + w.locked

/-- Expiry test (`HCWallet.IsExpired`: `time.Now().After(ExpiresAt)`). -/
def HCWallet.IsExpired (w : HCWallet) (now : ℤ) : Prop := w.expiresAt < now

instance (w : HCWallet) (now : ℤ) : Decidable (w.IsExpired now) :=
  inferInstanceAs (Decidable (_ < _))

/-- Lock admissibility (`HCWallet.CanLock`): exact decimal comparison and
non-expiry. -/
def HCWallet.CanLock (w : HCWallet) (amount : ℚ) (now : ℤ) : Prop :=
  amount ≤ w.available ∧ ¬ w.IsExpired now

instance (w : HCWallet) (amount : ℚ) (now : ℤ) : Decidable (w.CanLock amount now) :=
  inferInstanceAs (Decidable (_ ∧ _))

/-- Error kinds surfaced by the repository, service and transport layers. -/
inductive WErr where
  | insufficientOrConflict
  | walletExpired
  | insufficientBalance
  | invalidArgument
  | concurrentModification
deriving DecidableEq

deriving instance DecidableEq for Except

/-! ### Repository operations (Neo4j Cypher queries, src/unnamed/part_003) -/

/-- The rolling expiry window (`duration('P30D')`); only its positivity
matters. -/
def thirtyDays : ℤ := 30

/-- Repository `LockHC`: one conditional Cypher update.  The guard checks the
expected version, `toFloat(w.available) >= $amount` and
`w.expires_at > datetime()`; the update stores `toString` of the binary64
results and increments the version.  Zero matched rows are reported as an
error (the Go code checks `result.Next`). -/
def LockHC (w : HCWallet) (amount : ℚ) (expectedVersion : ℕ) (now : ℤ) :
    Except WErr HCWallet :=
  let x := fl64 amount
  if w.version = expectedVersion ∧ x ≤ fl64 w.available ∧ now < w.expiresAt then
    .ok { available := shortestDec (fl64 (fl64 w.available - x)),
          locked := shortestDec (fl64 (fl64 w.locked + x)),
          expiresAt := w.expiresAt, version := w.version + 1 }
  else .error .insufficientOrConflict

/-- Repository `ReleaseHC`: guard `toFloat(w.locked) >= $amount`, no version
check.  The Go code does not inspect `result.Next`, so a query that matches no
row returns success with the wallet untouched. -/
def ReleaseHC (w : HCWallet) (amount : ℚ) : Except WErr HCWallet :=
  let x := fl64 amount
  if x ≤ fl64 w.locked then
    .ok { w with locked := shortestDec (fl64 (fl64 w.locked - x)), version := w.version + 1 }
  else .ok w

/-- Repository `RefundHC`: like `ReleaseHC` but also returns the amount to
`available`; same silent no-op when the guard fails. -/
def RefundHC (w : HCWallet) (amount : ℚ) : Except WErr HCWallet :=
  let x := fl64 amount
  if x ≤ fl64 w.locked then
    .ok { available := shortestDec (fl64 (fl64 w.available + x)),
          locked := shortestDec (fl64 (fl64 w.locked - x)),
          expiresAt := w.expiresAt, version := w.version + 1 }
  else .ok w

/-- Repository `CreditHC`: unconditional update; extends the expiry to
`now + 30d` when that is later, increments the version.  No version check,
no amount check. -/
def CreditHC (w : HCWallet) (amount : ℚ) (now : ℤ) : Except WErr HCWallet :=
  let x := fl64 amount
  .ok { available := shortestDec (fl64 (fl64 w.available + x)),
        locked := w.locked,
        expiresAt := if w.expiresAt < now + thirtyDays then now + thirtyDays
                     else w.expiresAt,
        version := w.version + 1 }

/-- Repository `UpdateTrustScore`: conditional update guarded by
`t.version = $expected_version` (the version field of the submitted record);
on a match every field is overwritten and the stored version is incremented;
zero matched rows are reported as concurrent modification. -/
def UpdateTrustScore (stored upd : TrustScore) : Except WErr TrustScore :=
  if stored.version = upd.version then
    .ok { score := upd.score, verification := upd.verification,
          disputePenalty := upd.disputePenalty, sla := upd.sla,
          network := upd.network, verifiedOutcomes := upd.verifiedOutcomes,
          version := stored.version + 1 }
  else .error .concurrentModification

/-- Repository `RecordVerificationOutcome`: a single unconditional SET clause.
All right-hand sides read the pre-update state, so the recomputed score uses
the component values from before this update.  No version check. -/
def RecordVerificationOutcome (t : TrustScore) (passed : Bool) (latencyMs : ℕ) :
    TrustScore :=
  { verifiedOutcomes := t.verifiedOutcomes + 1
    version := t.version + 1
    verification :=
      if passed then (if t.verification < 400 then t.verification + 1 else 400)
      else (if 0 < t.verification then t.verification - 2 else 0)
    disputePenalty := t.disputePenalty
    sla :=
      if latencyMs ≤ 2000 then (if t.sla < 200 then t.sla + 1 else 200)
      else (if 0 < t.sla then t.sla - 1 else 0)
    network := t.network
    score := t.verification + t.sla + t.network - t.disputePenalty }

/-! ### Service layer (identity_service.go) -/

/-- Service `LockHCForEscrow`: reads the wallet, rejects expired wallets, then
rejects when `CanLock` fails (exact decimal comparison), then calls the
repository with the version it read. -/
def LockHCForEscrow (w : HCWallet) (amount : ℚ) (now : ℤ) :
    Except WErr HCWallet :=
  if w.IsExpired now then .error .walletExpired
  else if ¬ w.CanLock amount now then .error .insufficientBalance
  else LockHC w amount w.version now

/-- Service `ReleaseHCFromEscrow`: direct delegation to the repository. -/
def ReleaseHCFromEscrow (w : HCWallet) (amount : ℚ) : Except WErr HCWallet :=
  ReleaseHC w amount

/-- Service `RefundHCFromEscrow`: direct delegation to the repository. -/
def RefundHCFromEscrow (w : HCWallet) (amount : ℚ) : Except WErr HCWallet :=
  RefundHC w amount

/-- The trust-score record the service builds in `inheritParentTrust`: score
from the inherited tau, verification and network scaled from the parent
components by the binary64 literal 0.30 and truncated by the `uint32`
conversions, dispute penalty and sla left at the child's current values. -/
def inheritChildTrust (parent child : TrustScore) : TrustScore :=
  { child with
    score := (truncNat (fl64 (parent.InheritedTauForChild * 1000)) : ℤ)
    verification := (truncNat (fl64 ((u32 parent.verification : ℚ) * fl03)) : ℤ)
    network := (truncNat (fl64 ((u32 parent.network : ℚ) * fl03)) : ℤ) }

/-- Service `inheritParentTrust`: reads parent and child trust scores and
submits the inherited record under the child version it read. -/
def inheritParentTrust (parent child : TrustScore) : Except WErr TrustScore :=
  UpdateTrustScore child (inheritChildTrust parent child)

/-! ### Transport layer (gRPC handlers, src/unnamed/part_002) -/

/-- Handler `CreditWallet`: rejects a non-positive amount with
`InvalidArgument` before any repository call, then credits. -/
def CreditWallet (w : HCWallet) (amount : ℚ) (now : ℤ) : Except WErr HCWallet :=
  if amount ≤ 0 then .error .invalidArgument
  else CreditHC w amount now

/-- Handler `LockWallet`: parses the amount and calls the service directly —
the source performs no positivity check on this path. -/
def LockWallet (w : HCWallet) (amount : ℚ) (now : ℤ) : Except WErr HCWallet :=
  LockHCForEscrow w amount now

/-- Handler `ReleaseWallet` without a target DID: refunds the amount back to
`available` — the source performs no positivity check on this path. -/
def ReleaseWallet (w : HCWallet) (amount : ℚ) : Except WErr HCWallet :=
  RefundHCFromEscrow w amount

/-! ### Lineage (repository `GetAgentLineage`, handler `ResolveLineage`) -/

/-- The SPAWNED ancestor chain of `d`, listed from the root ancestor down to
`d` itself (Cypher `nodes(path)` for
`(root)-[:SPAWNED*0..]->(agent)` with a parentless root).  Fuel bounds the
walk so the definition is structural. -/
def ancestorChain (parent : String → Option String) : ℕ → String → List String
  | 0, d => [d]
  | f + 1, d =>
    match parent d with
    | none => [d]
    | some p => ancestorChain parent f p ++ [d]

/-- Whether following parents from `d` reaches a parentless identity within
`f` steps (the situation in which the Cypher pattern matches a rooted path). -/
def rootedWithin (parent : String → Option String) : ℕ → String → Bool
  | 0, d => (parent d).isNone
  | f + 1, d =>
    match parent d with
    | none => true
    | some p => rootedWithin parent f p

/-- The lineage record returned by repository `GetAgentLineage`. -/
structure AgentLineage where
  agentDid : String
  parentDid : Option String
  rootDid : String
  depth : ℕ
  ancestors : List String
deriving DecidableEq

/-- Repository `GetAgentLineage`: ancestors from root to agent, depth is the
number of SPAWNED edges on the path. -/
def GetAgentLineage (parent : String → Option String) (fuel : ℕ) (did : String) :
    AgentLineage :=
  let chain := ancestorChain parent fuel did
  { agentDid := did, parentDid := parent did, rootDid := chain.headI,
    depth := chain.length - 1, ancestors := chain }

/-- The factor-assignment loop of handler `ResolveLineage`: walks
`lineage.Ancestors` (root first), pairs each existing ancestor with the current
factor and multiplies the factor by 0.30 (binary64) after each hit; a missing
ancestor is skipped without consuming a factor level. -/
def lineageFactorsAux (existsId : String → Bool) :
    List String → ℚ → List (String × ℚ)
  | [], _ => []
  | a :: rest, f =>
    if existsId a then (a, f) :: lineageFactorsAux existsId rest (fl64 (f * fl03))
    else lineageFactorsAux existsId rest f

/-- Handler `ResolveLineage`: the queried identity first with factor 1.0, then
the ancestors (root first) with factors starting at 0.30. -/
def ResolveLineage (existsId : String → Bool) (self : String)
    (ancestors : List String) : List (String × ℚ) :=
  (self, 1) :: lineageFactorsAux existsId ancestors fl03

/-- The factor sequence `0.30, fl(0.30 * 0.30), ...` produced by repeated
binary64 multiplication, for stating what `ResolveLineage` assigns. -/
def flPowers : ℕ → ℚ → List ℚ
  | 0, _ => []
  | n + 1, f => f :: flPowers n (fl64 (f * fl03))

/-! ### Definitions modelled from the spec (for comparison with the source) -/

/-- Modelled from the spec: the invariant formula
"score == clamp(verification + sla + network - dispute_penalty)" with the
clamp range [0, 1000] (spec sections 3 and 8).  Used to compare the spec's
invariant against the states the source produces. -/
def specClampScore (t : TrustScore) : ℤ :=
  max 0 (min (t.verification + t.sla + t.network - t.disputePenalty) 1000)

/-- Modelled from the spec: "sets child's score = round(inherited_tau * 1000)"
(spec section 4.2); rounding to the nearest integer, halves up.  Used to
compare against the source's uint32 truncation. -/
def specRound (q : ℚ) : ℤ := qfloor (q + 1 / 2)

/-! ### Concrete fixtures used by counterexamples and witnesses -/

/-- Wallet with less locked balance than the amounts exercised against it. -/
def wLow : HCWallet := { available := 0, locked := 5, expiresAt := 1, version := 1 }

/-- Second low-locked wallet, for the C1 witness. -/
def wLow2 : HCWallet := { available := 0, locked := 3, expiresAt := 1, version := 1 }

/-- Wallet whose stored available string is "0.9" (the state after crediting
the decimal 0.9), parsed as the exact decimal 9/10. -/
def wC2 : HCWallet := { available := 9 / 10, locked := 0, expiresAt := 1, version := 1 }

/-- Wallet at version 7. -/
def wV7 : HCWallet := { available := 10, locked := 2, expiresAt := 5, version := 7 }

/-- The same balances as `wV7` but at version 42. -/
def wV42 : HCWallet := { available := 10, locked := 2, expiresAt := 5, version := 42 }

/-- Wallet for the C8 negative-amount run. -/
def wC8 : HCWallet := { available := 5, locked := 3, expiresAt := 1, version := 1 }

/-- Wallet whose stored available string is "0.3" (the state after crediting
the decimal 0.3), parsed as the exact decimal 3/10. -/
def wC10 : HCWallet := { available := 3 / 10, locked := 0, expiresAt := 1, version := 1 }

/-- Trust score at version 2 (arbitrary in-range fields). -/
def tsV2 : TrustScore :=
  { score := 400, verification := 150, disputePenalty := 0, sla := 100,
    network := 150, verifiedOutcomes := 4, version := 2 }

/-- The same trust score as `tsV2` presented at version 9. -/
def tsV9 : TrustScore :=
  { score := 400, verification := 150, disputePenalty := 0, sla := 100,
    network := 150, verifiedOutcomes := 4, version := 9 }

/-- Reachable trust-score state with verification 1 and sla, network drained
to 0 (obtained by inheritance chains and repeated slow outcomes). -/
def tC7 : TrustScore :=
  { score := 1, verification := 1, disputePenalty := 0, sla := 0,
    network := 0, verifiedOutcomes := 7, version := 3 }

/-- Parent trust score 926, for which truncation and rounding differ. -/
def parent926 : TrustScore := { defaultTrustScore with score := 926 }

/-- The trust-score state produced by inheriting from a default parent into a
default child. -/
def tInherited : TrustScore :=
  { score := 150, verification := 60, disputePenalty := 0, sla := 100,
    network := 60, verifiedOutcomes := 0, version := 2 }

/-- Example spawn graph: c was spawned by p, p by the root r. -/
def exParent : String → Option String :=
  fun d => if d = "c" then some "p" else if d = "p" then some "r" else none

/-- Existence oracle that knows every identity. -/
def allIds : String → Bool := fun _ => true

/-! ### Helper lemmas -/

/-- The hand-rolled floor agrees with the mathlib floor. -/
theorem qfloor_eq_floor (q : ℚ) : qfloor q = ⌊q⌋ := by
  rw [qfloor, Int.fdiv_eq_ediv _ (Int.ofNat_nonneg q.den), Rat.floor_def]

/-- The ancestor chain always ends at the queried identity. -/
theorem ancestorChain_getLast? (parent : String → Option String) :
    ∀ (f : ℕ) (d : String), (ancestorChain parent f d).getLast? = some d := by
  intro f
  induction f with
  | zero => intro d; rfl
  | succ f ih =>
    intro d
    unfold ancestorChain
    cases parent d with
    | none => rfl
    | some p => rw [List.getLast?_append]; rfl

/-- The ancestor chain is never empty. -/
theorem ancestorChain_ne_nil (parent : String → Option String) (f : ℕ) (d : String) :
    ancestorChain parent f d ≠ [] := by
  cases f with
  | zero => simp [ancestorChain]
  | succ f =>
    unfold ancestorChain
    cases parent d with
    | none => simp
    | some p => simp

/-- Head of an append with a nonempty first part. -/
theorem headI_append_left {l r : List String} (h : l ≠ []) :
    (l ++ r).headI = l.headI := by
  cases l with
  | nil => exact absurd rfl h
  | cons a t => rfl

/-- When the walk reaches a root within the fuel bound, the head of the chain
has no parent. -/
theorem ancestorChain_headI_root (parent : String → Option String) :
    ∀ (f : ℕ) (d : String), rootedWithin parent f d = true →
      parent (ancestorChain parent f d).headI = none := by
  intro f
  induction f with
  | zero =>
    intro d h
    simp only [rootedWithin, Option.isNone_iff_eq_none] at h
    simpa [ancestorChain] using h
  | succ f ih =>
    intro d h
    unfold ancestorChain
    unfold rootedWithin at h
    cases hp : parent d with
    | none => simpa [List.headI] using hp
    | some p =>
      rw [hp] at h
      rw [headI_append_left (ancestorChain_ne_nil parent f p)]
      exact ih p h

/-- Consecutive entries of the ancestor chain are linked by the parent map. -/
theorem ancestorChain_chain' (parent : String → Option String) :
    ∀ (f : ℕ) (d : String),
      List.Chain' (fun a b => parent b = some a) (ancestorChain parent f d) := by
  intro f
  induction f with
  | zero => intro d; simp [ancestorChain]
  | succ f ih =>
    intro d
    unfold ancestorChain
    cases hp : parent d with
    | none => simp
    | some p =>
      rw [List.chain'_append]
      refine ⟨ih p, by simp, ?_⟩
      intro x hx y hy
      rw [ancestorChain_getLast? parent f p] at hx
      cases hx
      simp only [List.head?_cons, Option.mem_def, Option.some.injEq] at hy
      cases hy
      exact hp

/-- The factor loop pairs the ancestors with successive binary64 powers of
0.30 when every ancestor exists. -/
theorem lineageFactorsAux_allIds :
    ∀ (ancs : List String) (f : ℚ),
      lineageFactorsAux allIds ancs f = List.zip ancs (flPowers ancs.length f) := by
  intro ancs
  induction ancs with
  | nil => intro f; rfl
  | cons a rest ih =>
    intro f
    simp only [lineageFactorsAux, allIds, if_true, List.length_cons, flPowers,
      List.zip_cons_cons, ih]

/-! ### Claim C1 -/

/-- C1 counterexample: with locked = 5 and amount = 10 (amount strictly above
the locked balance), ReleaseHC and RefundHC do not fail with an error of the
failure taxonomy — they return success with the wallet unchanged, because the
Go code never inspects whether the guarded Cypher update matched a row. -/
theorem C1_counterexample :
    ReleaseHC wLow 10 = .ok wLow ∧ RefundHC wLow 10 = .ok wLow := by decide

/-- C1 amended: for every wallet and every amount whose binary64 value exceeds
the binary64 value of the locked balance, ReleaseFromEscrow and
RefundFromEscrow leave the wallet completely unchanged but report success (a
silent no-op); no error of the failure taxonomy is raised and no partial
effect is applied. -/
theorem C1_amended (w : HCWallet) (x : ℚ) (h : fl64 w.locked < fl64 x) :
    ReleaseHC w x = .ok w ∧ RefundHC w x = .ok w := by
  refine ⟨?_, ?_⟩ <;> simp [ReleaseHC, RefundHC, not_le.mpr h]

/-- C1 witness: the amended statement applied to a concrete wallet. -/
theorem C1_witness :
    ReleaseHC wLow2 7 = .ok wLow2 ∧ RefundHC wLow2 7 = .ok wLow2 :=
  C1_amended wLow2 7 (by decide)

/-! ### Claim C3 -/

/-- C3 counterexample: CreditHC and ReleaseHC accept no expected-version
argument and commit against any stored version — here the same credit call
commits both at stored version 7 and at stored version 42, and a release
commits at version 42; a caller that read an older version is never rejected
with concurrent modification on these paths. -/
theorem C3_counterexample :
    CreditHC wV7 5 0 = .ok { available := 15, locked := 2, expiresAt := 30, version := 8 } ∧
    CreditHC wV42 5 0 = .ok { available := 15, locked := 2, expiresAt := 30, version := 43 } ∧
    ReleaseHC wV42 1 = .ok { available := 10, locked := 1, expiresAt := 5, version := 43 } := by
  decide

/-- C3 amended: only UpdateTrustScore and LockHC follow the optimistic
concurrency discipline (commit exactly when the presented version matches,
increment by one, reject mismatches without change); ReleaseHC, RefundHC,
CreditHC and RecordVerificationOutcome take no version, always succeed, and
increment the stored version unconditionally. -/
theorem C3_amended :
    (∀ s u : TrustScore, s.version ≠ u.version →
      UpdateTrustScore s u = .error .concurrentModification) ∧
    (∀ s u : TrustScore, s.version = u.version →
      UpdateTrustScore s u = .ok ⟨u.score, u.verification, u.disputePenalty,
        u.sla, u.network, u.verifiedOutcomes, s.version + 1⟩) ∧
    (∀ (w : HCWallet) (x : ℚ) (v : ℕ) (now : ℤ), w.version ≠ v →
      LockHC w x v now = .error .insufficientOrConflict) ∧
    (∀ (w : HCWallet) (x : ℚ) (now : ℤ), ∃ w2, CreditHC w x now = .ok w2 ∧
      w2.version = w.version + 1) ∧
    (∀ (t : TrustScore) (p : Bool) (l : ℕ),
      (RecordVerificationOutcome t p l).version = t.version + 1) ∧
    (∀ (w : HCWallet) (x : ℚ),
      (∃ w2, ReleaseHC w x = .ok w2) ∧ (∃ w2, RefundHC w x = .ok w2)) := by
  refine ⟨?_, ?_, ?_, ?_, ?_, ?_⟩
  · intro s u h; simp [UpdateTrustScore, h]
  · intro s u h; simp [UpdateTrustScore, h]
  · intro w x v now h; simp [LockHC, h]
  · intro w x now; exact ⟨_, rfl, rfl⟩
  · intro t p l; rfl
  · intro w x
    constructor
    · by_cases hc : fl64 x ≤ fl64 w.locked
      · exact ⟨⟨w.available, shortestDec (fl64 (fl64 w.locked - fl64 x)),
          w.expiresAt, w.version + 1⟩, by simp [ReleaseHC, hc]⟩
      · exact ⟨w, by simp [ReleaseHC, hc]⟩
    · by_cases hc : fl64 x ≤ fl64 w.locked
      · exact ⟨⟨shortestDec (fl64 (fl64 w.available + fl64 x)),
          shortestDec (fl64 (fl64 w.locked - fl64 x)),
          w.expiresAt, w.version + 1⟩, by simp [RefundHC, hc]⟩
      · exact ⟨w, by simp [RefundHC, hc]⟩

/-- C3 witness: the version-checked paths applied at concrete mismatching
versions. -/
theorem C3_witness :
    UpdateTrustScore tsV2 tsV9 = .error .concurrentModification ∧
    LockHC wV7 1 9 0 = .error .insufficientOrConflict :=
  ⟨C3_amended.1 tsV2 tsV9 (by decide), C3_amended.2.2.1 wV7 1 9 0 (by decide)⟩

/-! ### Claim C4 -/

/-- C4 counterexample: inheriting trust from a default parent (score 500) into
a default child produces the reachable state with score 150 but components
verification 60, dispute 0, sla 100, network 60, whose clamped sum is 220 —
the invariant score = clamp(verification + sla + network - dispute_penalty)
does not hold in every reachable state. -/
theorem C4_counterexample :
    inheritParentTrust defaultTrustScore defaultTrustScore = .ok tInherited ∧
    tInherited.score ≠ specClampScore tInherited := by decide

/-- C4 amended: the invariant holds at creation; RecordVerificationOutcome
recomputes the score from the component values read before the update (so the
score equals the previous components' sum, and stays in [0, 1000] when the
pre-state components are within their documented bounds with no dispute
penalty); trust inheritance sets the score from the inherited tau alone,
independently of the component sum. -/
theorem C4_amended :
    defaultTrustScore.score = specClampScore defaultTrustScore ∧
    (∀ (t : TrustScore) (p : Bool) (l : ℕ),
      (RecordVerificationOutcome t p l).score =
        t.verification + t.sla + t.network - t.disputePenalty) ∧
    (∀ (t : TrustScore) (p : Bool) (l : ℕ),
      0 ≤ t.verification → t.verification ≤ 400 →
      0 ≤ t.sla → t.sla ≤ 200 → 0 ≤ t.network → t.network ≤ 200 →
      t.disputePenalty = 0 →
      0 ≤ (RecordVerificationOutcome t p l).score ∧
        (RecordVerificationOutcome t p l).score ≤ 1000) ∧
    (∀ p c : TrustScore, (inheritChildTrust p c).score =
      (truncNat (fl64 (p.InheritedTauForChild * 1000)) : ℤ)) := by
  refine ⟨by decide, fun t p l => rfl, ?_, fun p c => rfl⟩
  intro t p l h1 h2 h3 h4 h5 h6 h7
  simp only [RecordVerificationOutcome]
  omega

/-- C4 witness: the score bound applied to a verification outcome recorded on
the default state. -/
theorem C4_witness :
    0 ≤ (RecordVerificationOutcome defaultTrustScore true 500).score ∧
      (RecordVerificationOutcome defaultTrustScore true 500).score ≤ 1000 :=
  C4_amended.2.2.1 defaultTrustScore true 500 (by decide) (by decide) (by decide)
    (by decide) (by decide) (by decide) (by decide)

/-! ### Claim C6 -/

/-- C6 counterexample: for a parent with score 926 the source truncates
(uint32 conversion) the inherited score to 277, while rounding
inherited_tau * 1000 as the claim states gives 278. -/
theorem C6_counterexample :
    (inheritChildTrust parent926 defaultTrustScore).score = 277 ∧
    specRound (fl64 (parent926.InheritedTauForChild * 1000)) = 278 := by decide

/-- C6 amended: InheritParentTrust sets the child score to the truncation
(not the rounding) of inherited_tau * 1000, scales verification and network
from the parent components by the binary64 factor 0.30 with uint32
truncation, and leaves dispute penalty and sla at the child's current values
(0 and 100 for a freshly created child); truncation differs from rounding by
at most one, downward. -/
theorem C6_amended :
    (∀ p c : TrustScore,
      (inheritChildTrust p c).score =
        (truncNat (fl64 (p.InheritedTauForChild * 1000)) : ℤ) ∧
      (inheritChildTrust p c).verification =
        (truncNat (fl64 ((u32 p.verification : ℚ) * fl03)) : ℤ) ∧
      (inheritChildTrust p c).network =
        (truncNat (fl64 ((u32 p.network : ℚ) * fl03)) : ℤ) ∧
      (inheritChildTrust p c).disputePenalty = c.disputePenalty ∧
      (inheritChildTrust p c).sla = c.sla) ∧
    (∀ p : TrustScore, (inheritChildTrust p defaultTrustScore).disputePenalty = 0 ∧
      (inheritChildTrust p defaultTrustScore).sla = 100) ∧
    (∀ q : ℚ, 0 ≤ q →
      specRound q - 1 ≤ (truncNat q : ℤ) ∧ (truncNat q : ℤ) ≤ specRound q) := by
  refine ⟨fun p c => ⟨rfl, rfl, rfl, rfl, rfl⟩, fun p => ⟨rfl, rfl⟩, ?_⟩
  intro q hq
  have hfl : qfloor q = ⌊q⌋ := qfloor_eq_floor q
  have hfl2 : qfloor (q + 1 / 2) = ⌊q + 1 / 2⌋ := qfloor_eq_floor (q + 1 / 2)
  have h0 : 0 ≤ ⌊q⌋ := Int.floor_nonneg.mpr hq
  have htr : (truncNat q : ℤ) = ⌊q⌋ := by
    rw [truncNat, hfl, Int.toNat_of_nonneg h0]
  constructor
  · rw [specRound, hfl2, htr]
    have : ⌊q + 1 / 2⌋ ≤ ⌊q + 1⌋ := Int.floor_mono (by linarith)
    rw [show (q + 1 : ℚ) = q + (1 : ℤ) by push_cast; ring, Int.floor_add_int] at this
    omega
  · rw [specRound, hfl2, htr]
    exact Int.floor_mono (by linarith)

/-- C6 witness: the truncation-rounding relation at a concrete value. -/
theorem C6_witness :
    specRound (3 / 2) - 1 ≤ (truncNat (3 / 2) : ℤ) ∧
      (truncNat (3 / 2) : ℤ) ≤ specRound (3 / 2) :=
  C6_amended.2.2 (3 / 2) (by decide)

/-! ### Claim C7 -/

/-- C7 counterexample: on the reachable state with verification 1 and sla,
network, dispute all 0, a failed slow outcome drives verification to -1 (not
floored at 0), and the stored score (1, the pre-update component sum) is not
the sum of the freshly updated components (-1). -/
theorem C7_counterexample :
    (RecordVerificationOutcome tC7 false 5000).verification = -1 ∧
    (RecordVerificationOutcome tC7 false 5000).score = 1 ∧
    (RecordVerificationOutcome tC7 false 5000).score ≠
      (RecordVerificationOutcome tC7 false 5000).verification +
        (RecordVerificationOutcome tC7 false 5000).sla +
        (RecordVerificationOutcome tC7 false 5000).network -
        (RecordVerificationOutcome tC7 false 5000).disputePenalty := by decide

/-- C7 amended: RecordVerificationOutcome increments verified outcomes and the
version by exactly one; verification gains 1 capped at 400 when passed, and
otherwise loses 2 whenever it was positive (which lands at -1 from 1 — the
floor at 0 only applies from a non-positive value); sla gains 1 capped at 200
for latency at most 2000 and otherwise loses 1 correctly floored at 0; the
score is recomputed as the sum of the components read before the update. -/
theorem C7_amended :
    (∀ (t : TrustScore) (p : Bool) (l : ℕ),
      (RecordVerificationOutcome t p l).verifiedOutcomes = t.verifiedOutcomes + 1 ∧
      (RecordVerificationOutcome t p l).version = t.version + 1 ∧
      (RecordVerificationOutcome t p l).verification =
        (if p then (if t.verification < 400 then t.verification + 1 else 400)
         else (if 0 < t.verification then t.verification - 2 else 0)) ∧
      (RecordVerificationOutcome t p l).sla =
        (if l ≤ 2000 then (if t.sla < 200 then t.sla + 1 else 200)
         else (if 0 < t.sla then t.sla - 1 else 0)) ∧
      (RecordVerificationOutcome t p l).score =
        t.verification + t.sla + t.network - t.disputePenalty) ∧
    (∀ (t : TrustScore) (p : Bool) (l : ℕ), 0 ≤ t.sla →
      0 ≤ (RecordVerificationOutcome t p l).sla) ∧
    (∀ (t : TrustScore) (p : Bool) (l : ℕ), 0 ≤ t.verification →
      t.verification ≠ 1 → 0 ≤ (RecordVerificationOutcome t p l).verification) := by
  refine ⟨fun t p l => ⟨rfl, rfl, rfl, rfl, rfl⟩, ?_, ?_⟩
  · intro t p l h
    simp only [RecordVerificationOutcome]
    split_ifs <;> omega
  · intro t p l h h1
    simp only [RecordVerificationOutcome]
    split_ifs <;> omega

/-- C7 witness: the floor statements applied at concrete states. -/
theorem C7_witness :
    0 ≤ (RecordVerificationOutcome tC7 true 500).sla ∧
      0 ≤ (RecordVerificationOutcome defaultTrustScore false 5000).verification :=
  ⟨C7_amended.2.1 tC7 true 500 (by decide),
    C7_amended.2.2 defaultTrustScore false 5000 (by decide) (by decide)⟩

/-! ### Claim C8 -/

/-- C8: the LockWallet and ReleaseWallet handlers perform no positivity check:
a negative amount is passed to the repository and applied (locking -1 moves one
credit from locked to available; releasing -1 moves one credit from available
to locked); only CreditWallet rejects it with invalid argument. -/
theorem C8_code_bug_eval :
    LockWallet wC8 (-1) 0 = .ok { available := 6, locked := 2, expiresAt := 1, version := 2 } ∧
    ReleaseWallet wC8 (-1) = .ok { available := 4, locked := 4, expiresAt := 1, version := 2 } ∧
    CreditWallet wC8 (-1) 0 = .error .invalidArgument := by decide

/-! ### Claim C2 -/

/-- C2: amounts are not processed as exact decimals — the repository converts
them to binary64 (`amount.Float64()`, Cypher `toFloat`) and stores `toString`
of binary64 results.  Consequently locking the exact decimal 0.2 from the
stored balance "0.9" and refunding the same amount does not restore the
available balance: the stored string becomes "0.7" after the lock and
"0.8999999999999999" after the refund, whose decimal value differs from
9/10. -/
theorem C2_code_bug_eval :
    (LockHCForEscrow wC2 (2 / 10) 0).bind (fun w => RefundHCFromEscrow w (2 / 10)) =
      .ok { available := 8999999999999999 / 10000000000000000, locked := 0, expiresAt := 1, version := 3 } ∧
    (8999999999999999 / 10000000000000000 : ℚ) ≠ wC2.available := by decide

/-! ### Claim C10 -/

/-- C10: a successful LockForEscrow does not conserve the total balance.
Starting from the stored strings available "0.3", locked "0" (total 3/10),
locking the exact decimal 0.1 stores the strings "0.19999999999999998"
(binary64 0.3 minus binary64 0.1, printed shortest) and "0.1"; the Total the
domain computes from the parsed decimals is then 0.29999999999999998, two
units in the seventeenth decimal place short of the pre-lock total 0.3. -/
theorem C10_code_bug_eval :
    LockHCForEscrow wC10 (1 / 10) 0 =
      .ok { available := 19999999999999998 / 100000000000000000, locked := 1 / 10, expiresAt := 1, version := 2 } ∧
    HCWallet.Total { available := 19999999999999998 / 100000000000000000, locked := 1 / 10, expiresAt := 1, version := 2 } ≠
      HCWallet.Total wC10 := by decide

/-! ### Claim C5 -/

/-- C5 counterexample: in the spawn chain r -> p -> c, the lineage DID list is
[r, p, c] with depth 2 (as the claim states), but ResolveLineage assigns the
full factor 0.30 to the ROOT r, 0.30 squared (about 0.09) to the direct parent
p, and lists the queried identity twice (factor 1.0 at the head and the
smallest factor at the end) — the direct parent does not receive 0.30. -/
theorem C5_counterexample :
    (GetAgentLineage exParent 10 "c").ancestors = ["r", "p", "c"] ∧
    (GetAgentLineage exParent 10 "c").depth = 2 ∧
    ResolveLineage allIds "c" ["r", "p", "c"] =
      [("c", 1), ("r", fl03), ("p", fl64 (fl03 * fl03)),
        ("c", fl64 (fl64 (fl03 * fl03) * fl03))] ∧
    fl64 (fl03 * fl03) ≠ fl03 ∧ fl64 (fl03 * fl03) ≠ 3 / 10 := by decide

/-- C5 amended: GetAgentLineage returns the ordered DID chain from the root
ancestor (which has no parent) down to the queried identity, with depth equal
to the path length; ResolveLineage then reports factor 1.0 for the queried
identity first and pairs the ancestor list root-first with the binary64
squence 0.30, 0.30^2, ... — the factors decay from the root toward the queried
identity, so the direct parent receives the deepest power, not the full
factor. -/
theorem C5_amended :
    (∀ (parent : String → Option String) (f : ℕ) (d : String),
      rootedWithin parent f d = true →
      (GetAgentLineage parent f d).ancestors.getLast? = some d ∧
      parent (GetAgentLineage parent f d).rootDid = none ∧
      (GetAgentLineage parent f d).depth =
        (GetAgentLineage parent f d).ancestors.length - 1 ∧
      List.Chain' (fun a b => parent b = some a)
        (GetAgentLineage parent f d).ancestors) ∧
    (∀ (self : String) (ancs : List String),
      ResolveLineage allIds self ancs =
        (self, 1) :: List.zip ancs (flPowers ancs.length fl03)) := by
  constructor
  · intro parent f d h
    exact ⟨ancestorChain_getLast? parent f d, ancestorChain_headI_root parent f d h,
      rfl, ancestorChain_chain' parent f d⟩
  · intro self ancs
    simp only [ResolveLineage, lineageFactorsAux_allIds]

/-- C5 witness: the amended statement applied to the concrete spawn chain. -/
theorem C5_witness :
    (GetAgentLineage exParent 10 "c").ancestors.getLast? = some "c" ∧
    ResolveLineage allIds "c" ["r", "p"] =
      ("c", 1) :: List.zip ["r", "p"] (flPowers 2 fl03) :=
  ⟨(C5_amended.1 exParent 10 "c" (by decide)).1, C5_amended.2 "c" ["r", "p"]⟩

/-! ### Claim C9 -/

set_option maxHeartbeats 4000000 in
/-- C9: for every parent trust score in [0, 1000], the child starting tau
computed by InheritedTauForChild — binary64 evaluation of
max(tau() * 0.30, 0.10) — satisfies 0.10 <= child tau <= 0.30.  Proved by
checking all 1001 possible scores. -/
theorem C9_theorem (t : TrustScore) (h0 : 0 ≤ t.score) (h1 : t.score ≤ 1000) :
    1 / 10 ≤ t.InheritedTauForChild ∧ t.InheritedTauForChild ≤ 3 / 10 := by
  have hball : ∀ n : ℕ, n < 1001 →
      1 / 10 ≤ inheritedTauOfScore (n : ℤ) ∧ inheritedTauOfScore (n : ℤ) ≤ 3 / 10 := by
    decide
  have hn : ((t.score.toNat : ℤ)) = t.score := Int.toNat_of_nonneg h0
  have hlt : t.score.toNat < 1001 := by omega
  have hb := hball t.score.toNat hlt
  simp only [TrustScore.InheritedTauForChild]
  rw [← hn]
  exact hb

/-- C9 witness: the bound applied to the default trust score. -/
theorem C9_witness :
    1 / 10 ≤ defaultTrustScore.InheritedTauForChild ∧
      defaultTrustScore.InheritedTauForChild ≤ 3 / 10 :=
  C9_theorem defaultTrustScore (by decide) (by decide)
